import Mathlib

/-!
Shallow embedding of `src/js/supabase.js` (study-material repository).

The JavaScript module is a facade over the Supabase SDK.  Each wrapper
function is modelled as a pure Lean function taking:
  * the module-level client handle (`Option Client`: `none` models the
    uninitialized `supabase = null` state);
  * an `Env` record that plays the role of the backend: it holds the
    response the SDK would deliver for each remote call issued during the
    function, plus ambient browser state (`Date.now()`, the local midnight
    computed by `setHours(0,0,0,0)`, `window.location.pathname`, the locale
    date formatter `toLocaleDateString`, and the storage public-URL scheme).
Each function returns its JavaScript return value together with the list of
backend calls it performed (`List Effect`), so that "performs no network
call" and "exactly one append attempted" are statable.

Timestamps are epoch milliseconds (`Int`).  `Date.setDate(getDate() + n)`
adds exactly `n * 86400000` ms in this timezone-shift-free model, and
`toISOString` is an injective encoding, so the stored `ban_until` is kept as
the underlying `Option Int` timestamp rather than its string image.
JavaScript truthiness of a nullable number (`duration`) is `some d` with
`d ≠ 0`; truthiness of the nullable `ban_until` field is `Option.isSome`
(ISO strings are never empty).
-/

namespace Supabase

/-- The opaque client handle produced by `window.supabase.createClient`. -/
structure Client where
  deriving Repr, DecidableEq

/-- The `{ message }` error objects used throughout the module. -/
structure ErrMsg where
  message : String
  deriving Repr, DecidableEq

/-- An authenticated user as read from `data.user` / `auth.getUser()`:
only the `id` field is consumed by this module. -/
structure User where
  id : String
  deriving Repr, DecidableEq

/-- The `data` object destructured from `auth.signInWithPassword`:
only `data.user` is consumed. -/
structure SignInData where
  user : Option User
  deriving Repr, DecidableEq

/-- A row of the `user_bans` table, exactly the fields `banUser` inserts.
The RPC `get_user_ban_status` returns such a row (the fields `signIn`
reads from it are `is_active`, `reason`, `ban_until`). -/
structure BanRow where
  user_id : String
  banned_by : Option String
  reason : String
  ban_type : Option String
  ban_until : Option Int
  is_active : Bool
  deriving Repr, DecidableEq

/-- A row of the `materials` table, exactly the fields `addMaterial` inserts. -/
structure MaterialRow where
  title : String
  description : String
  image_url : String
  telegram_link : String
  category : String
  created_by : Option String
  status : String
  deriving Repr, DecidableEq

/-- A row of the `categories` table, exactly the fields `addCategory` inserts. -/
structure CategoryRow where
  name : String
  slug : String
  icon : String
  description : String
  deriving Repr, DecidableEq

/-- An opaque partial-update payload forwarded to a `.update(...)` call.
The module never inspects it; the one internally-built payload
(`{ avatar_url: publicUrl }` in `uploadAvatar`) is represented by its url. -/
abbrev Patch := String

/-- A file object passed to the upload functions: only `name` is consumed. -/
structure FileObj where
  name : String
  deriving Repr, DecidableEq

/-- The backend calls a wrapper function can issue, labelled with the
arguments the source passes. -/
inductive Effect where
  | authSignUp (email password fullName : String)
  | authSignIn (email password : String)
  | authSignOut
  | authGetUser
  | rpcCall (fname : String)
  | insertSiteVisit (user_id : Option String) (page_path : String) (visited_at : Int)
  | insertUserBan (row : BanRow)
  | insertMaterial (row : MaterialRow)
  | insertCategory (row : CategoryRow)
  | updateCategories (id : String) (updates : Patch)
  | deleteCategories (id : String)
  | updateMaterials (id : String) (updates : Patch)
  | deleteMaterials (id : String)
  | updateProfileFields (id : String) (updates : Patch)
  | updateProfileRole (id : String) (role : String)
  | updateProfileBanFlag (id : String) (value : Bool)
  | updateUserBans (user_id : String)
  | storageUpload (bucket fileName : String)
  | storageGetPublicUrl (bucket fileName : String)
  | selectTable (tname : String)
  deriving Repr, DecidableEq

/-- The environment: backend responses for each remote call the module can
issue, plus ambient browser/Date state.  In the SDK every awaited call
resolves to a `{ data, error }` pair; `Option ErrMsg` fields model the
`error` component and `Option _` data fields model nullable `data`. -/
structure Env where
  nowMs : Int
  midnightMs : Int
  pagePath : String
  fmtDate : Int → String
  getPublicUrl : String → String → String
  currentUser : Option User
  signUpData : Option String
  signUpError : Option ErrMsg
  signInData : SignInData
  signInError : Option ErrMsg
  signOutError : Option ErrMsg
  banStatus : Option BanRow
  banStatusError : Option ErrMsg
  trackVisitError : Option ErrMsg
  insertBanError : Option ErrMsg
  profileUpdateError : Option ErrMsg
  insertCategoryError : Option ErrMsg
  updateCategoryError : Option ErrMsg
  deleteCategoryError : Option ErrMsg
  insertMaterialError : Option ErrMsg
  updateMaterialError : Option ErrMsg
  deleteMaterialError : Option ErrMsg
  storageUploadError : Option ErrMsg
  categoriesData : Option (List String)
  materialsData : Option (List String)
  allMaterialsData : Option (List String)
  allUsersData : Option (List String)
  allUsersError : Option ErrMsg
  banHistoryData : Option (List BanRow)
  siteVisits : Option (List Int)

/-- `{ data, error }` result of an auth call whose `data` the module passes
through opaquely. -/
structure AuthRes where
  data : Option String
  error : Option ErrMsg
  deriving Repr, DecidableEq

/-- Result of `signIn`: `{ data?, error? }` where `data` is the sign-in data. -/
structure SignInRes where
  data : Option SignInData
  error : Option ErrMsg
  deriving Repr, DecidableEq

/-- Result of a database mutation call: the module only ever consumes the
`error` component of the SDK response it forwards. -/
structure DbRes where
  error : Option ErrMsg
  deriving Repr, DecidableEq

/-- `{ url?, error? }` result of the upload functions. -/
structure UploadRes where
  url : Option String
  error : Option ErrMsg
  deriving Repr, DecidableEq

/-- Visit counters returned by `getVisitStats`. -/
structure VisitStats where
  total : Nat
  today : Nat
  thisWeek : Nat
  deriving Repr, DecidableEq

/-- One JavaScript day in milliseconds (`setDate(getDate() + n)` shifts by
`n` of these in the timezone-shift-free model). -/
def dayMs : Int := 86400000

/-- Substring containment, for "the message contains ..." properties. -/
def strContains (s sub : String) : Prop :=
  ∃ pre post, pre ++ sub.data ++ post = s.data

/-- JavaScript truthiness of a nullable number (`null` and `0` are falsy). -/
def jsNumTruthy : Option Int → Bool
  | none => false
  | some d => d != 0

/-- `getCurrentUser`: `null` when unconfigured, else `auth.getUser()`. -/
def getCurrentUser (client : Option Client) (env : Env) :
    Option User × List Effect :=
  match client with
  | none => (none, [])
  | some _ => (env.currentUser, [Effect.authGetUser])

/-- `checkUserBan`: RPC `get_user_ban_status`; on error logs and returns
`null`, else returns the data (possibly `null`). -/
def checkUserBan (client : Option Client) (env : Env) :
    Option BanRow × List Effect :=
  match client with
  | none => (none, [])
  | some _ =>
    match env.banStatusError with
    | some _ => (none, [Effect.rpcCall "get_user_ban_status"])
    | none => (env.banStatus, [Effect.rpcCall "get_user_ban_status"])

/-- `trackVisit`: inserts a `site_visits` row; the insert's result is
discarded (the function returns `undefined`). -/
def trackVisit (client : Option Client) (env : Env) (userId : Option String) :
    List Effect :=
  match client with
  | none => []
  | some _ => [Effect.insertSiteVisit userId env.pagePath env.nowMs]

/-- The suspension message built by `signIn` for an active ban:
`Your account has been suspended. Reason: <reason>` followed by
` Until: <localized date>` when `ban_until` is set, else ` (Permanent)`. -/
def suspendedMessage (env : Env) (b : BanRow) : String :=
  "Your account has been suspended. Reason: " ++ b.reason ++
    (match b.ban_until with
     | some t => " Until: " ++ env.fmtDate t
     | none => " (Permanent)")

/-- `signIn`: forwards to `auth.signInWithPassword`; on credential success
checks the ban status — an active ban signs the session back out and
returns the suspension error; otherwise a visit is tracked and the SDK
result is returned unchanged. -/
def signIn (client : Option Client) (env : Env) (email password : String) :
    SignInRes × List Effect :=
  match client with
  | none => (⟨none, some ⟨"Supabase not configured"⟩⟩, [])
  | some c =>
    let data := env.signInData
    let error := env.signInError
    match error, data.user with
    | none, some user =>
      let ban := checkUserBan (some c) env
      match ban.1 with
      | some b =>
        if b.is_active then
          (⟨none, some ⟨suspendedMessage env b⟩⟩,
            [Effect.authSignIn email password] ++ ban.2 ++ [Effect.authSignOut])
        else
          (⟨some data, none⟩,
            [Effect.authSignIn email password] ++ ban.2 ++
              trackVisit (some c) env (some user.id))
      | none =>
        (⟨some data, none⟩,
          [Effect.authSignIn email password] ++ ban.2 ++
            trackVisit (some c) env (some user.id))
    | _, _ => (⟨some data, error⟩, [Effect.authSignIn email password])

/-- `signUp`: direct forward to `auth.signUp`. -/
def signUp (client : Option Client) (env : Env)
    (email password fullName : String) : AuthRes × List Effect :=
  match client with
  | none => (⟨none, some ⟨"Supabase not configured"⟩⟩, [])
  | some _ =>
    (⟨env.signUpData, env.signUpError⟩, [Effect.authSignUp email password fullName])

/-- `signOut`: direct forward to `auth.signOut`. -/
def signOut (client : Option Client) (env : Env) : DbRes × List Effect :=
  match client with
  | none => (⟨some ⟨"Supabase not configured"⟩⟩, [])
  | some _ => (⟨env.signOutError⟩, [Effect.authSignOut])

/-- `updateProfile`: resolves the current identity, fails locally with
`Not authenticated` when no session exists, else forwards the partial
update to the `profiles` table keyed by the user id. -/
def updateProfile (client : Option Client) (env : Env) (updates : Patch) :
    DbRes × List Effect :=
  match client with
  | none => (⟨some ⟨"Supabase not configured"⟩⟩, [])
  | some c =>
    let cur := getCurrentUser (some c) env
    match cur.1 with
    | none => (⟨some ⟨"Not authenticated"⟩⟩, cur.2)
    | some u =>
      (⟨env.profileUpdateError⟩, cur.2 ++ [Effect.updateProfileFields u.id updates])

/-- `getCategories`: `data || []`, the `error` component is never read. -/
def getCategories (client : Option Client) (env : Env) : List String :=
  match client with
  | none => []
  | some _ => env.categoriesData.getD []

/-- `addCategory`: insert into `categories`. -/
def addCategory (client : Option Client) (env : Env)
    (name slug icon description : String) : DbRes × List Effect :=
  match client with
  | none => (⟨some ⟨"Supabase not configured"⟩⟩, [])
  | some _ =>
    (⟨env.insertCategoryError⟩, [Effect.insertCategory ⟨name, slug, icon, description⟩])

/-- `updateCategory`: update in `categories` keyed by id. -/
def updateCategory (client : Option Client) (env : Env) (id : String)
    (updates : Patch) : DbRes × List Effect :=
  match client with
  | none => (⟨some ⟨"Supabase not configured"⟩⟩, [])
  | some _ => (⟨env.updateCategoryError⟩, [Effect.updateCategories id updates])

/-- `deleteCategory`: delete from `categories` keyed by id. -/
def deleteCategory (client : Option Client) (env : Env) (id : String) :
    DbRes × List Effect :=
  match client with
  | none => (⟨some ⟨"Supabase not configured"⟩⟩, [])
  | some _ => (⟨env.deleteCategoryError⟩, [Effect.deleteCategories id])

/-- `getMaterials`: published-only listing, `data || []`. -/
def getMaterials (client : Option Client) (env : Env) : List String :=
  match client with
  | none => []
  | some _ => env.materialsData.getD []

/-- `getAllMaterials`: unfiltered listing, `data || []`. -/
def getAllMaterials (client : Option Client) (env : Env) : List String :=
  match client with
  | none => []
  | some _ => env.allMaterialsData.getD []

/-- `addMaterial`: resolves the current identity (without failing when it is
absent) and inserts a `materials` row with `created_by = user?.id` and
`status = 'published'`. -/
def addMaterial (client : Option Client) (env : Env)
    (title description imageUrl telegramLink category : String) :
    DbRes × List Effect :=
  match client with
  | none => (⟨some ⟨"Supabase not configured"⟩⟩, [])
  | some c =>
    let cur := getCurrentUser (some c) env
    let row : MaterialRow :=
      ⟨title, description, imageUrl, telegramLink, category,
        cur.1.map (fun u => u.id), "published"⟩
    (⟨env.insertMaterialError⟩, cur.2 ++ [Effect.insertMaterial row])

/-- `updateMaterial`: update in `materials` keyed by id. -/
def updateMaterial (client : Option Client) (env : Env) (id : String)
    (updates : Patch) : DbRes × List Effect :=
  match client with
  | none => (⟨some ⟨"Supabase not configured"⟩⟩, [])
  | some _ => (⟨env.updateMaterialError⟩, [Effect.updateMaterials id updates])

/-- `deleteMaterial`: delete from `materials` keyed by id. -/
def deleteMaterial (client : Option Client) (env : Env) (id : String) :
    DbRes × List Effect :=
  match client with
  | none => (⟨some ⟨"Supabase not configured"⟩⟩, [])
  | some _ => (⟨env.deleteMaterialError⟩, [Effect.deleteMaterials id])

/-- The `[^a-zA-Z0-9.] → '_'` sanitisation applied to upload file names. -/
def sanitizeName (s : String) : String :=
  String.map (fun ch => if ch.isAlphanum || ch == '.' then ch else '_') s

/-- `uploadImage`: upload `<Date.now()>-<sanitized name>` to the bucket
(default `material-images`), then fetch and return the public URL. -/
def uploadImage (client : Option Client) (env : Env) (file : FileObj)
    (bucket : String) : UploadRes × List Effect :=
  match client with
  | none => (⟨none, some ⟨"Supabase not configured"⟩⟩, [])
  | some _ =>
    let fileName := toString env.nowMs ++ "-" ++ sanitizeName file.name
    match env.storageUploadError with
    | some e => (⟨none, some e⟩, [Effect.storageUpload bucket fileName])
    | none =>
      (⟨some (env.getPublicUrl bucket fileName), none⟩,
        [Effect.storageUpload bucket fileName,
          Effect.storageGetPublicUrl bucket fileName])

/-- The avatar file name `<user.id>-<Date.now()>.<extension>`. -/
def avatarFileName (env : Env) (user : User) (file : FileObj) : String :=
  user.id ++ "-" ++ toString env.nowMs ++ "." ++
    (file.name.splitOn ".").getLastD ""

/-- `uploadAvatar`: requires a session, uploads to `profile-avatars`,
fetches the public URL, persists it with `updateProfile` (whose awaited
result is discarded) and returns `{ url }`. -/
def uploadAvatar (client : Option Client) (env : Env) (file : FileObj) :
    UploadRes × List Effect :=
  match client with
  | none => (⟨none, some ⟨"Supabase not configured"⟩⟩, [])
  | some c =>
    let cur := getCurrentUser (some c) env
    match cur.1 with
    | none => (⟨none, some ⟨"Not authenticated"⟩⟩, cur.2)
    | some u =>
      let fileName := avatarFileName env u file
      match env.storageUploadError with
      | some e => (⟨none, some e⟩, cur.2 ++ [Effect.storageUpload "profile-avatars" fileName])
      | none =>
        let publicUrl := env.getPublicUrl "profile-avatars" fileName
        let up := updateProfile (some c) env publicUrl
        (⟨some publicUrl, none⟩,
          cur.2 ++ [Effect.storageUpload "profile-avatars" fileName,
            Effect.storageGetPublicUrl "profile-avatars" fileName] ++ up.2)

/-- `getAllUsers`: RPC `get_all_users_admin`; on error logs and returns `[]`,
else `data || []`. -/
def getAllUsers (client : Option Client) (env : Env) : List String :=
  match client with
  | none => []
  | some _ =>
    match env.allUsersError with
    | some _ => []
    | none => env.allUsersData.getD []

/-- `updateUserRole`: update `{ role }` on `profiles` keyed by the user id. -/
def updateUserRole (client : Option Client) (env : Env)
    (userId role : String) : DbRes × List Effect :=
  match client with
  | none => (⟨some ⟨"Supabase not configured"⟩⟩, [])
  | some _ => (⟨env.profileUpdateError⟩, [Effect.updateProfileRole userId role])

/-- The `banUntil` computation of `banUser`: `new Date()` plus
`parseInt(duration)` days when `banType === 'temporary' && duration`
(JavaScript truthiness), else `null`. -/
def computeBanUntil (nowMs : Int) (banType : Option String)
    (duration : Option Int) : Option Int :=
  if banType == some "temporary" && jsNumTruthy duration then
    some (nowMs + duration.getD 0 * dayMs)
  else
    none

/-- `banUser`: resolves the acting admin, computes the optional expiry,
inserts a `user_bans` row, and only when the insert reported no error
updates `{ is_banned: true }` on the profile; returns `{ error }` with the
insert's error. -/
def banUser (client : Option Client) (env : Env) (userId reason : String)
    (banType : Option String) (duration : Option Int) : DbRes × List Effect :=
  match client with
  | none => (⟨some ⟨"Supabase not configured"⟩⟩, [])
  | some c =>
    let cur := getCurrentUser (some c) env
    let banUntil := computeBanUntil env.nowMs banType duration
    let row : BanRow :=
      ⟨userId, cur.1.map (fun u => u.id), reason, banType, banUntil, true⟩
    match env.insertBanError with
    | some e => (⟨some e⟩, cur.2 ++ [Effect.insertUserBan row])
    | none =>
      (⟨none⟩, cur.2 ++ [Effect.insertUserBan row,
        Effect.updateProfileBanFlag userId true])

/-- A profile row, restricted to the fields this module touches. -/
structure ProfileRow where
  id : String
  is_banned : Bool
  deriving Repr, DecidableEq

/-- The backend state acted on by `unbanUser`: the `user_bans` table and the
`profiles` table. -/
structure DB where
  user_bans : List BanRow
  profiles : List ProfileRow
  deriving Repr, DecidableEq

/-- Action of the `user_bans` update of `unbanUser` on one row: rows
matching `.eq('user_id', userId).eq('is_active', true)` get
`{ is_active: false }`. -/
def deactivateRow (userId : String) (r : BanRow) : BanRow :=
  if r.user_id == userId && r.is_active then { r with is_active := false } else r

/-- Action of the `profiles` update of `unbanUser` on one row: rows
matching `.eq('id', userId)` get `{ is_banned: false }`. -/
def clearFlagRow (userId : String) (p : ProfileRow) : ProfileRow :=
  if p.id == userId then { p with is_banned := false } else p

/-- `unbanUser`, with the two updates interpreted against the backend state
(both succeed).  Returns the result of the final `profiles` update, the new
state, the number of `user_bans` rows matched by the deactivation update,
and the calls issued. -/
def unbanUser (client : Option Client) (db : DB) (userId : String) :
    DbRes × DB × Nat × List Effect :=
  match client with
  | none => (⟨some ⟨"Supabase not configured"⟩⟩, db, 0, [])
  | some _ =>
    let matched :=
      (db.user_bans.filter (fun r => r.user_id == userId && r.is_active)).length
    let bans := db.user_bans.map (deactivateRow userId)
    let profs := db.profiles.map (clearFlagRow userId)
    (⟨none⟩, ⟨bans, profs⟩, matched,
      [Effect.updateUserBans userId, Effect.updateProfileBanFlag userId false])

/-- `getUserBanHistory`: listing of the user's ban rows, `data || []`. -/
def getUserBanHistory (client : Option Client) (env : Env)
    (userId : String) : List BanRow :=
  match client with
  | none => []
  | some _ => env.banHistoryData.getD []

/-- `getVisitStats`: fetches the whole `site_visits` log and counts all
rows, rows with `visited_at >= today.setHours(0,0,0,0)`, and rows with
`visited_at >= now minus 7 days`; each count is `... || 0` and a `null`
log yields zeros. -/
def getVisitStats (client : Option Client) (env : Env) :
    VisitStats × List Effect :=
  match client with
  | none => (⟨0, 0, 0⟩, [])
  | some _ =>
    let allVisits := env.siteVisits
    let today := env.midnightMs
    let weekAgo := env.nowMs - 7 * dayMs
    let total := (allVisits.map List.length).getD 0
    let todayVisits :=
      (allVisits.map (fun l => (l.filter (fun t => today ≤ t)).length)).getD 0
    let weekVisits :=
      (allVisits.map (fun l => (l.filter (fun t => weekAgo ≤ t)).length)).getD 0
    (⟨total, todayVisits, weekVisits⟩, [Effect.selectTable "site_visits"])

/-- Modelled from the spec: naive midnight/7-day-window filtering of a
visit log — total is the log's length, today counts timestamps at or after
local midnight, thisWeek counts timestamps at or after 7×24h before now
(boundaries inside). -/
def specVisitStats (log : List Int) (nowMs midnightMs : Int) : VisitStats :=
  ⟨log.length,
    log.countP (fun t => midnightMs ≤ t),
    log.countP (fun t => nowMs - 7 * dayMs ≤ t)⟩

/-- True exactly of the `site_visits` insert calls. -/
def isVisitInsert : Effect → Bool
  | Effect.insertSiteVisit _ _ _ => true
  | _ => false

/-- A concrete client handle, for instantiating the theorems. -/
def cl : Client := {}

/-- A concrete environment with every backend response benign, used as the
base of the concrete instantiations. -/
def baseEnv : Env where
  nowMs := 0
  midnightMs := 0
  pagePath := "/"
  fmtDate := fun _ => "1/1/1970"
  getPublicUrl := fun b f => b ++ "/" ++ f
  currentUser := none
  signUpData := none
  signUpError := none
  signInData := ⟨none⟩
  signInError := none
  signOutError := none
  banStatus := none
  banStatusError := none
  trackVisitError := none
  insertBanError := none
  profileUpdateError := none
  insertCategoryError := none
  updateCategoryError := none
  deleteCategoryError := none
  insertMaterialError := none
  updateMaterialError := none
  deleteMaterialError := none
  storageUploadError := none
  categoriesData := none
  materialsData := none
  allMaterialsData := none
  allUsersData := none
  allUsersError := none
  banHistoryData := none
  siteVisits := none

/-- An active ban of type `temporary` carrying no expiry, exactly what
`banUser uid r "temporary" null` inserts. -/
def banC1 : BanRow := ⟨"u1", none, "harassment", some "temporary", none, true⟩

/-- Environment for a successful credential check on a banned identity. -/
def envC1 : Env := { baseEnv with signInData := ⟨some ⟨"u1"⟩⟩, banStatus := some banC1 }

/-- Environment for a successful credential check with no ban on record. -/
def envNB : Env := { baseEnv with signInData := ⟨some ⟨"u1"⟩⟩ }

/-- Environment with an authenticated session. -/
def envAu : Env := { baseEnv with currentUser := some ⟨"u1"⟩ }

/-- A one-ban, one-profile backend state. -/
def db0 : DB := ⟨[⟨"u1", none, "spam", some "permanent", none, true⟩], [⟨"u1", true⟩]⟩

theorem strContains_of_append_right (a b : String) : strContains (a ++ b) b :=
  ⟨a.data, [], by simp⟩

theorem strContains_append_left (a b sub : String) (h : strContains a sub) :
    strContains (a ++ b) sub := by
  obtain ⟨pre, post, hp⟩ := h
  exact ⟨pre, post ++ b.data, by simp [← hp]⟩

theorem strContains_append_right (a b sub : String) (h : strContains b sub) :
    strContains (a ++ b) sub := by
  obtain ⟨pre, post, hp⟩ := h
  exact ⟨a.data ++ pre, post, by simp [← hp]⟩

theorem banUser_inserted_row (c : Client) (env : Env) (uid rsn : String)
    (bt : Option String) (dur : Option Int) (row : BanRow)
    (h : Effect.insertUserBan row ∈ (banUser (some c) env uid rsn bt dur).2) :
    row = ⟨uid, env.currentUser.map (fun u => u.id), rsn, bt,
      computeBanUntil env.nowMs bt dur, true⟩ := by
  rcases hie : env.insertBanError with _ | e <;>
    simp [banUser, getCurrentUser, hie] at h <;> exact h

/-- Claim C2: `banUser` issues the `{ is_banned: true }` profile update
exactly when the `user_bans` insert reported no error; on insert failure it
performs no profile update and returns the insert error (its returned
error is the insert's error in every case). -/
theorem banUser_flag_update_iff_insert_ok (c : Client) (env : Env)
    (uid rsn : String) (bt : Option String) (dur : Option Int) :
    (Effect.updateProfileBanFlag uid true ∈ (banUser (some c) env uid rsn bt dur).2 ↔
      env.insertBanError = none) ∧
    (banUser (some c) env uid rsn bt dur).1.error = env.insertBanError ∧
    (∀ e, env.insertBanError = some e →
      Effect.updateProfileBanFlag uid true ∉ (banUser (some c) env uid rsn bt dur).2) := by
  rcases hie : env.insertBanError with _ | e <;>
    simp [banUser, getCurrentUser, hie]

/-- Witness for C2 at a concrete failing insert: the profile update is not
attempted. -/
theorem banUser_flag_update_iff_insert_ok_witness :
    Effect.updateProfileBanFlag "u1" true ∉
      (banUser (some cl) { baseEnv with insertBanError := some ⟨"dup"⟩ }
        "u1" "spam" (some "temporary") (some 7)).2 :=
  (banUser_flag_update_iff_insert_ok cl
    { baseEnv with insertBanError := some ⟨"dup"⟩ }
    "u1" "spam" (some "temporary") (some 7)).2.2 ⟨"dup"⟩ rfl

/-- Counterexample to claim C4 as stated: `banUser` with ban type
`temporary` and the given day-count `0` inserts a null expiry, not the
current time plus zero days (`duration` is falsy, so the `banUntil`
computation is skipped). -/
theorem banUser_zero_duration_cex :
    (banUser (some cl) baseEnv "u1" "spam" (some "temporary") (some 0)).2 =
      [Effect.authGetUser,
        Effect.insertUserBan ⟨"u1", none, "spam", some "temporary", none, true⟩,
        Effect.updateProfileBanFlag "u1" true] ∧
    BanRow.ban_until ⟨"u1", none, "spam", some "temporary", none, true⟩ ≠
      some (baseEnv.nowMs + 0 * dayMs) :=
  ⟨rfl, by simp⟩

/-- Claim C4 (amended): the row `banUser` inserts has
`ban_until = now + d days` when the ban type is `temporary` and a nonzero
day-count `d` is given, and `ban_until = null` when the ban type is absent
or not `temporary`, or the day-count is absent or zero. -/
theorem banUser_inserted_expiry (c : Client) (env : Env) (uid rsn : String)
    (bt : Option String) (dur : Option Int) (row : BanRow)
    (h : Effect.insertUserBan row ∈ (banUser (some c) env uid rsn bt dur).2) :
    (∀ d : Int, bt = some "temporary" → dur = some d → d ≠ 0 →
      row.ban_until = some (env.nowMs + d * dayMs)) ∧
    (bt ≠ some "temporary" ∨ dur = none ∨ dur = some 0 →
      row.ban_until = none) := by
  have hrow := banUser_inserted_row c env uid rsn bt dur row h
  subst hrow
  constructor
  · intro d hbt hdur hd
    subst hbt; subst hdur
    simp [computeBanUntil, jsNumTruthy, hd]
  · rintro (hbt | hdur | hdur)
    · have : (bt == some "temporary") = false := by
        simp [beq_iff_eq]; exact hbt
      simp [computeBanUntil, this]
    · subst hdur; simp [computeBanUntil, jsNumTruthy]
    · subst hdur; simp [computeBanUntil, jsNumTruthy]

/-- Witness for C4 at `banUser(u1, spam, temporary, 7)`: the inserted
expiry is the current time plus 7 days. -/
theorem banUser_inserted_expiry_witness :
    BanRow.ban_until ⟨"u1", none, "spam", some "temporary",
        some (baseEnv.nowMs + 7 * dayMs), true⟩ =
      some (baseEnv.nowMs + 7 * dayMs) :=
  (banUser_inserted_expiry cl baseEnv "u1" "spam" (some "temporary") (some 7)
    ⟨"u1", none, "spam", some "temporary", some (baseEnv.nowMs + 7 * dayMs), true⟩
    (by simp [banUser, getCurrentUser, baseEnv, computeBanUntil, jsNumTruthy])).1
    7 rfl rfl (by decide)

/-- Counterexample to claim C1 as stated: an active ban of type
`temporary` whose `ban_until` is null (exactly what
`banUser uid r "temporary" null` records) makes `signIn` report
`(Permanent)`; the message contains no expiry date, although the claim
requires one for a temporary ban and reserves `(Permanent)` for
non-temporary bans (`signIn` branches on `ban_until`, not on `ban_type`). -/
theorem signIn_temporary_ban_message_cex :
    banC1.ban_type = some "temporary" ∧
    banC1.is_active = true ∧
    (signIn (some cl) envC1 "a@b.c" "pw").1.error =
      some ⟨"Your account has been suspended. Reason: harassment (Permanent)"⟩ ∧
    ¬ ∃ t : Int, banC1.ban_until = some t ∧
      strContains "Your account has been suspended. Reason: harassment (Permanent)"
        (envC1.fmtDate t) := by
  refine ⟨rfl, rfl, rfl, ?_⟩
  rintro ⟨t, ht, -⟩
  simp [banC1] at ht

/-- Claim C1 (amended): when the credential check succeeds and the queried
ban status is an active ban, `signIn` signs the session back out and
returns an error (no data) whose message contains the ban reason, the
localized expiry date when `ban_until` is set, and `(Permanent)` when
`ban_until` is null. -/
theorem signIn_active_ban_revokes_and_reports (c : Client) (env : Env)
    (email password : String) (u : User) (b : BanRow)
    (hU : env.signInData.user = some u)
    (hE : env.signInError = none)
    (hBE : env.banStatusError = none)
    (hB : env.banStatus = some b)
    (hA : b.is_active = true) :
    Effect.authSignOut ∈ (signIn (some c) env email password).2 ∧
    (signIn (some c) env email password).1.data = none ∧
    ∃ m : ErrMsg, (signIn (some c) env email password).1.error = some m ∧
      strContains m.message b.reason ∧
      (∀ t, b.ban_until = some t → strContains m.message (env.fmtDate t)) ∧
      (b.ban_until = none → strContains m.message "(Permanent)") := by
  have hsig : signIn (some c) env email password =
      (⟨none, some ⟨suspendedMessage env b⟩⟩,
        [Effect.authSignIn email password, Effect.rpcCall "get_user_ban_status",
          Effect.authSignOut]) := by
    simp [signIn, hE, hU, checkUserBan, hBE, hB, hA]
  rw [hsig]
  refine ⟨by simp, rfl, ⟨suspendedMessage env b⟩, rfl, ?_, ?_, ?_⟩
  · exact strContains_append_left _ _ _ (strContains_of_append_right _ _)
  · intro t ht
    unfold suspendedMessage
    rw [ht]
    exact strContains_append_right _ _ _ (strContains_of_append_right _ _)
  · intro ht
    unfold suspendedMessage
    rw [ht]
    exact strContains_append_right _ _ _ ⟨" ".data, [], by simp⟩

/-- Witness for C1 at a concrete banned sign-in: the session is revoked and
the message carries the reason and the `(Permanent)` marker. -/
theorem signIn_active_ban_revokes_and_reports_witness :
    Effect.authSignOut ∈ (signIn (some cl) envC1 "a@b.c" "pw").2 ∧
    (signIn (some cl) envC1 "a@b.c" "pw").1.data = none ∧
    ∃ m : ErrMsg, (signIn (some cl) envC1 "a@b.c" "pw").1.error = some m ∧
      strContains m.message banC1.reason ∧
      (∀ t, banC1.ban_until = some t → strContains m.message (envC1.fmtDate t)) ∧
      (banC1.ban_until = none → strContains m.message "(Permanent)") :=
  signIn_active_ban_revokes_and_reports cl envC1 "a@b.c" "pw" ⟨"u1"⟩ banC1
    rfl rfl rfl rfl rfl

/-- Claim C3: with the client handle unset, every mutating operation
(signUp, signIn, signOut, updateProfile, addCategory, updateCategory,
deleteCategory, addMaterial, updateMaterial, deleteMaterial, uploadImage,
uploadAvatar, updateUserRole, banUser, unbanUser) returns the
`Supabase not configured` error and issues no backend call (empty effect
list; `unbanUser` also leaves the state untouched). -/
theorem unconfigured_mutators_error_and_no_calls (env : Env) (db : DB)
    (s1 s2 s3 s4 s5 : String) (p : Patch) (f : FileObj)
    (bt : Option String) (dur : Option Int) :
    signUp none env s1 s2 s3 = (⟨none, some ⟨"Supabase not configured"⟩⟩, []) ∧
    signIn none env s1 s2 = (⟨none, some ⟨"Supabase not configured"⟩⟩, []) ∧
    signOut none env = (⟨some ⟨"Supabase not configured"⟩⟩, []) ∧
    updateProfile none env p = (⟨some ⟨"Supabase not configured"⟩⟩, []) ∧
    addCategory none env s1 s2 s3 s4 = (⟨some ⟨"Supabase not configured"⟩⟩, []) ∧
    updateCategory none env s1 p = (⟨some ⟨"Supabase not configured"⟩⟩, []) ∧
    deleteCategory none env s1 = (⟨some ⟨"Supabase not configured"⟩⟩, []) ∧
    addMaterial none env s1 s2 s3 s4 s5 = (⟨some ⟨"Supabase not configured"⟩⟩, []) ∧
    updateMaterial none env s1 p = (⟨some ⟨"Supabase not configured"⟩⟩, []) ∧
    deleteMaterial none env s1 = (⟨some ⟨"Supabase not configured"⟩⟩, []) ∧
    uploadImage none env f s1 = (⟨none, some ⟨"Supabase not configured"⟩⟩, []) ∧
    uploadAvatar none env f = (⟨none, some ⟨"Supabase not configured"⟩⟩, []) ∧
    updateUserRole none env s1 s2 = (⟨some ⟨"Supabase not configured"⟩⟩, []) ∧
    banUser none env s1 s2 bt dur = (⟨some ⟨"Supabase not configured"⟩⟩, []) ∧
    unbanUser none db s1 = (⟨some ⟨"Supabase not configured"⟩⟩, db, 0, []) ∧
    strContains "Supabase not configured" "not configured" :=
  ⟨rfl, rfl, rfl, rfl, rfl, rfl, rfl, rfl, rfl, rfl, rfl, rfl, rfl, rfl, rfl,
    "Supabase ".data, "".data, by decide⟩

/-- Claim C8: every read-list operation returns a plain list for every
outcome: the empty list when the client is unconfigured, when the backend
data is null, or (for `getAllUsers`) when the RPC reports an error, and
the backend rows unchanged otherwise. -/
theorem readlists_always_list_degrade_empty (c : Client) (env : Env)
    (uid : String) (e : ErrMsg) (cats mats allm users : List String)
    (hist : List BanRow) :
    getCategories none env = [] ∧
    getMaterials none env = [] ∧
    getAllMaterials none env = [] ∧
    getAllUsers none env = [] ∧
    getUserBanHistory none env uid = [] ∧
    getCategories (some c) { env with categoriesData := none } = [] ∧
    getMaterials (some c) { env with materialsData := none } = [] ∧
    getAllMaterials (some c) { env with allMaterialsData := none } = [] ∧
    getAllUsers (some c) { env with allUsersError := none, allUsersData := none } = [] ∧
    getUserBanHistory (some c) { env with banHistoryData := none } uid = [] ∧
    getAllUsers (some c) { env with allUsersError := some e, allUsersData := some users } = [] ∧
    getCategories (some c) { env with categoriesData := some cats } = cats ∧
    getMaterials (some c) { env with materialsData := some mats } = mats ∧
    getAllMaterials (some c) { env with allMaterialsData := some allm } = allm ∧
    getAllUsers (some c) { env with allUsersError := none, allUsersData := some users } = users ∧
    getUserBanHistory (some c) { env with banHistoryData := some hist } uid = hist :=
  ⟨rfl, rfl, rfl, rfl, rfl, rfl, rfl, rfl, rfl, rfl, rfl, rfl, rfl, rfl, rfl, rfl⟩

theorem signIn_nonbanned_eq (c : Client) (env : Env)
    (email password : String) (u : User)
    (hU : env.signInData.user = some u)
    (hE : env.signInError = none)
    (hB : ∀ b : BanRow, (checkUserBan (some c) env).1 = some b →
      b.is_active = false) :
    signIn (some c) env email password =
      (⟨some env.signInData, none⟩,
        [Effect.authSignIn email password, Effect.rpcCall "get_user_ban_status",
          Effect.insertSiteVisit (some u.id) env.pagePath env.nowMs]) := by
  rcases hbse : env.banStatusError with _ | e
  · rcases hbs : env.banStatus with _ | b
    · simp [signIn, hE, hU, checkUserBan, hbse, hbs, trackVisit]
    · have hact : b.is_active = false := hB b (by simp [checkUserBan, hbse, hbs])
      simp [signIn, hE, hU, checkUserBan, hbse, hbs, trackVisit, hact]
  · simp [signIn, hE, hU, checkUserBan, hbse, trackVisit]

/-- Claim C7: when the credential check succeeds and the identity is not
actively banned, `signIn` attempts exactly one visit-log append, and the
backend's answer to that append does not influence the returned result,
which is the untouched `{ data, error: null }` success. -/
theorem signIn_nonbanned_tracks_once (c : Client) (env : Env)
    (email password : String) (u : User)
    (hU : env.signInData.user = some u)
    (hE : env.signInError = none)
    (hB : ∀ b : BanRow, (checkUserBan (some c) env).1 = some b →
      b.is_active = false) :
    (signIn (some c) env email password).1 = ⟨some env.signInData, none⟩ ∧
    ((signIn (some c) env email password).2.countP isVisitInsert) = 1 ∧
    (∀ tv, (signIn (some c) { env with trackVisitError := tv } email password).1 =
      (signIn (some c) env email password).1) := by
  have h1 := signIn_nonbanned_eq c env email password u hU hE hB
  refine ⟨by rw [h1], by rw [h1]; rfl, ?_⟩
  intro tv
  have h2 := signIn_nonbanned_eq c { env with trackVisitError := tv }
    email password u hU hE hB
  rw [h1, h2]

/-- Witness for C7 at a concrete non-banned sign-in. -/
theorem signIn_nonbanned_tracks_once_witness :
    (signIn (some cl) envNB "a@b.c" "pw").1 = ⟨some envNB.signInData, none⟩ ∧
    ((signIn (some cl) envNB "a@b.c" "pw").2.countP isVisitInsert) = 1 ∧
    (∀ tv, (signIn (some cl) { envNB with trackVisitError := tv } "a@b.c" "pw").1 =
      (signIn (some cl) envNB "a@b.c" "pw").1) :=
  signIn_nonbanned_tracks_once cl envNB "a@b.c" "pw" ⟨"u1"⟩ rfl rfl
    (fun b h => by simp [checkUserBan, envNB, baseEnv] at h)

/-- Claim C9: `addMaterial` has no authentication gate: with no active
session it still issues the insert, with `created_by` absent and `status`
fixed to `published`, and forwards the backend's response — while
`updateProfile` and `uploadAvatar` in the same sessionless state return the
local `Not authenticated` error (and `updateProfile` performs no update
call). -/
theorem addMaterial_no_auth_gate (c : Client) (env : Env)
    (t d iu tl cat : String) (p : Patch) (f : FileObj)
    (hNo : env.currentUser = none) :
    addMaterial (some c) env t d iu tl cat =
      (⟨env.insertMaterialError⟩,
        [Effect.authGetUser,
          Effect.insertMaterial ⟨t, d, iu, tl, cat, none, "published"⟩]) ∧
    (updateProfile (some c) env p).1.error = some ⟨"Not authenticated"⟩ ∧
    (updateProfile (some c) env p).2 = [Effect.authGetUser] ∧
    (uploadAvatar (some c) env f).1.error = some ⟨"Not authenticated"⟩ := by
  simp [addMaterial, updateProfile, uploadAvatar, getCurrentUser, hNo]

/-- Witness for C9 at a concrete sessionless call. -/
theorem addMaterial_no_auth_gate_witness :
    addMaterial (some cl) baseEnv "t" "d" "i" "l" "c" =
      (⟨baseEnv.insertMaterialError⟩,
        [Effect.authGetUser,
          Effect.insertMaterial ⟨"t", "d", "i", "l", "c", none, "published"⟩]) ∧
    (updateProfile (some cl) baseEnv "patch").1.error = some ⟨"Not authenticated"⟩ ∧
    (updateProfile (some cl) baseEnv "patch").2 = [Effect.authGetUser] ∧
    (uploadAvatar (some cl) baseEnv ⟨"a.png"⟩).1.error = some ⟨"Not authenticated"⟩ :=
  addMaterial_no_auth_gate cl baseEnv "t" "d" "i" "l" "c" "patch" ⟨"a.png"⟩ rfl

/-- Claim C10: when the avatar upload succeeds, `uploadAvatar` returns
`{ url: publicUrl }` no matter how the subsequent profile write answers:
the `updateProfile` call is issued (its payload is the url) but its result
is discarded. -/
theorem uploadAvatar_url_regardless_of_profile_write (c : Client) (env : Env)
    (f : FileObj) (u : User)
    (hU : env.currentUser = some u)
    (hS : env.storageUploadError = none) :
    (uploadAvatar (some c) env f).1 =
      ⟨some (env.getPublicUrl "profile-avatars" (avatarFileName env u f)), none⟩ ∧
    (∀ x, (uploadAvatar (some c) { env with profileUpdateError := x } f).1 =
      (uploadAvatar (some c) env f).1) ∧
    Effect.updateProfileFields u.id
        (env.getPublicUrl "profile-avatars" (avatarFileName env u f)) ∈
      (uploadAvatar (some c) env f).2 := by
  simp [uploadAvatar, getCurrentUser, hU, hS, updateProfile, avatarFileName]

/-- Witness for C10 at a concrete successful upload. -/
theorem uploadAvatar_url_regardless_of_profile_write_witness :
    (uploadAvatar (some cl) envAu ⟨"a.png"⟩).1 =
      ⟨some (envAu.getPublicUrl "profile-avatars"
        (avatarFileName envAu ⟨"u1"⟩ ⟨"a.png"⟩)), none⟩ ∧
    (∀ x, (uploadAvatar (some cl) { envAu with profileUpdateError := x } ⟨"a.png"⟩).1 =
      (uploadAvatar (some cl) envAu ⟨"a.png"⟩).1) ∧
    Effect.updateProfileFields "u1"
        (envAu.getPublicUrl "profile-avatars"
          (avatarFileName envAu ⟨"u1"⟩ ⟨"a.png"⟩)) ∈
      (uploadAvatar (some cl) envAu ⟨"a.png"⟩).2 :=
  uploadAvatar_url_regardless_of_profile_write cl envAu ⟨"a.png"⟩ ⟨"u1"⟩ rfl rfl

theorem deactivateRow_not_matching (uid : String) (r : BanRow) :
    ((deactivateRow uid r).user_id == uid && (deactivateRow uid r).is_active)
      = false := by
  by_cases h : r.user_id = uid
  · by_cases ha : r.is_active = true <;> simp [deactivateRow, h, ha]
  · simp [deactivateRow, h]

theorem deactivateRow_idem (uid : String) (r : BanRow) :
    deactivateRow uid (deactivateRow uid r) = deactivateRow uid r := by
  have h := deactivateRow_not_matching uid r
  rw [deactivateRow, h]
  simp

theorem clearFlagRow_idem (uid : String) (p : ProfileRow) :
    clearFlagRow uid (clearFlagRow uid p) = clearFlagRow uid p := by
  by_cases h : p.id = uid <;> simp [clearFlagRow, h]

theorem clearFlagRow_cleared (uid : String) (p : ProfileRow)
    (h : (clearFlagRow uid p).id = uid) :
    (clearFlagRow uid p).is_banned = false := by
  by_cases hp : p.id = uid
  · simp [clearFlagRow, hp]
  · simp [clearFlagRow, hp] at h

theorem filter_deactivated_nil (uid : String) (l : List BanRow) :
    ((l.map (deactivateRow uid)).filter
      (fun r => r.user_id == uid && r.is_active)) = [] := by
  induction l with
  | nil => rfl
  | cons a l ih => simp [List.filter_cons, deactivateRow_not_matching, ih]

theorem map_deactivate_idem (uid : String) (l : List BanRow) :
    (l.map (deactivateRow uid)).map (deactivateRow uid) =
      l.map (deactivateRow uid) := by
  induction l with
  | nil => rfl
  | cons a l ih => simp [deactivateRow_idem, ih]

theorem map_clearFlag_idem (uid : String) (l : List ProfileRow) :
    (l.map (clearFlagRow uid)).map (clearFlagRow uid) =
      l.map (clearFlagRow uid) := by
  induction l with
  | nil => rfl
  | cons a l ih => simp [clearFlagRow_idem, ih]

/-- Claim C5: `unbanUser` is idempotent — after one run, a second run
matches zero `user_bans` rows with its deactivation update, still issues
the unconditional `{ is_banned: false }` profile update, and leaves the
(ban records, profile flag) state exactly as the first run left it; the
first run already has every profile row of the identity unbanned. -/
theorem unbanUser_idempotent (c : Client) (db : DB) (uid : String) :
    (unbanUser (some c) (unbanUser (some c) db uid).2.1 uid).2.2.1 = 0 ∧
    (unbanUser (some c) (unbanUser (some c) db uid).2.1 uid).2.1 =
      (unbanUser (some c) db uid).2.1 ∧
    Effect.updateProfileBanFlag uid false ∈
      (unbanUser (some c) (unbanUser (some c) db uid).2.1 uid).2.2.2 ∧
    (∀ p : ProfileRow, p ∈ (unbanUser (some c) db uid).2.1.profiles →
      p.id = uid → p.is_banned = false) := by
  refine ⟨?_, ?_, ?_, ?_⟩
  · simp [unbanUser, filter_deactivated_nil]
  · simp only [unbanUser]
    rw [map_deactivate_idem, map_clearFlag_idem]
  · simp [unbanUser]
  · intro p hp hid
    simp [unbanUser] at hp
    obtain ⟨q, -, hq⟩ := hp
    subst hq
    exact clearFlagRow_cleared uid q hid

/-- Witness for C5 at a concrete one-ban state. -/
theorem unbanUser_idempotent_witness :
    (unbanUser (some cl) (unbanUser (some cl) db0 "u1").2.1 "u1").2.2.1 = 0 ∧
    (unbanUser (some cl) (unbanUser (some cl) db0 "u1").2.1 "u1").2.1 =
      (unbanUser (some cl) db0 "u1").2.1 ∧
    Effect.updateProfileBanFlag "u1" false ∈
      (unbanUser (some cl) (unbanUser (some cl) db0 "u1").2.1 "u1").2.2.2 ∧
    (∀ p : ProfileRow, p ∈ (unbanUser (some cl) db0 "u1").2.1.profiles →
      p.id = "u1" → p.is_banned = false) :=
  unbanUser_idempotent cl db0 "u1"

/-- Claim C6: on a fetched visit log, `getVisitStats` returns exactly the
naive counts — total is the log's length, today counts timestamps at or
after local midnight, thisWeek counts timestamps at or after 7×24h before
now — and both boundary timestamps (exactly midnight, exactly 7×24h ago)
are counted as inside their windows. -/
theorem getVisitStats_matches_naive (c : Client) (env : Env)
    (log : List Int) (h : env.siteVisits = some log) :
    (getVisitStats (some c) env).1 = specVisitStats log env.nowMs env.midnightMs ∧
    (getVisitStats (some c)
      { env with siteVisits := some [env.midnightMs] }).1.today = 1 ∧
    (getVisitStats (some c)
      { env with siteVisits := some [env.nowMs - 7 * dayMs] }).1.thisWeek = 1 := by
  refine ⟨?_, ?_, ?_⟩
  · simp [getVisitStats, specVisitStats, h, List.countP_eq_length_filter]
  · simp [getVisitStats, List.filter]
  · simp [getVisitStats, List.filter]

/-- Witness for C6 at a concrete log spanning more than 7 days. -/
theorem getVisitStats_matches_naive_witness :
    (getVisitStats (some cl)
      { baseEnv with
          nowMs := 2000000000
          midnightMs := 1960000000
          siteVisits := some [0, 1000000000, 1960000000, 1395200000, 1999999999] }).1 =
      specVisitStats [0, 1000000000, 1960000000, 1395200000, 1999999999]
        2000000000 1960000000 :=
  (getVisitStats_matches_naive cl
    { baseEnv with
        nowMs := 2000000000
        midnightMs := 1960000000
        siteVisits := some [0, 1000000000, 1960000000, 1395200000, 1999999999] }
    [0, 1000000000, 1960000000, 1395200000, 1999999999] rfl).1

end Supabase
